import Mathlib

/-!
Verification of the belt-user-ops monitor: a cursor-based event-notification
relay that polls an upstream indexer for UserOperation and account-deployment
events, deduplicates them against a Redis-backed watermark plus per-event
tombstones, and delivers Discord-webhook notifications.

The development shallowly embeds the core of `src/monitor.ts` (the second,
Redis-backed variant: `getWatermark`, `shouldNotify`, `processUserOp`,
`processDeployment`, `poll`) and of the Discord module (`doSendWebhook`,
`notifyUserOp`, `notifyAccountDeployed`).  Redis state is modelled as an
association list of per-scope watermarks together with the set of recorded
event ids (the dedup ledger); block numbers, stored as decimal strings in the
source and always compared through `BigInt`, are modelled as `Nat`.
-/

namespace BeltUserOps

/-- A watermark scope: the pair `(chainId, contract)` from `watermarkKey`,
which builds the Redis key `belt:notifications:watermark:<chainId>:<contract>`. -/
structure Scope where
  chainId : Nat
  contract : String
deriving DecidableEq

/-- The Redis-backed state the monitor mutates: one optional watermark per
scope (`None` when the key is absent) and the set of recorded event ids
(the keys `belt:notifications:event:<eventId>`; the 30-day TTL is not
modelled, as no claim spans record expiry). -/
structure MonitorState where
  watermarks : List (Scope × Nat)
  events : List String
deriving DecidableEq

/-- Raw Redis read of the watermark key for a scope (`redis.get(wmKey)`):
`none` models a missing key. -/
def getWM (st : MonitorState) (sc : Scope) : Option Nat :=
  (st.watermarks.find? (fun p => decide (p.1 = sc))).map (fun p => p.2)

/-- `getWatermark` from monitor.ts: the stored watermark, defaulting to
`'0'` when the key is unset. -/
def getWatermark (st : MonitorState) (sc : Scope) : Nat :=
  (getWM st sc).getD 0

/-- Redis write of the watermark key (`redis.set(wmKey, blockNumber)`). -/
def setWM (sc : Scope) (blockNumber : Nat) (st : MonitorState) : MonitorState :=
  { st with watermarks := (sc, blockNumber) :: st.watermarks }

/-- Redis write of a dedup record
(`redis.set(EVENT_PREFIX + eventId, '1', 'EX', EVENT_TTL)`). -/
def recordEvent (eventId : String) (st : MonitorState) : MonitorState :=
  { st with events := eventId :: st.events }

/-- `shouldNotify` from monitor.ts (lines 345-373): read the watermark for the
scope; if the event position is strictly below it return false; if equal and a
dedup record exists return false; otherwise record the event and, when the
position is strictly greater than the stored watermark (or no watermark is
stored), write the position as the new watermark, returning true. -/
def shouldNotify (eventId : String) (blockNumber : Nat) (sc : Scope)
    (st : MonitorState) : Bool × MonitorState :=
  match getWM st sc with
  | none => (true, setWM sc blockNumber (recordEvent eventId st))
  | some wm =>
    if blockNumber < wm then (false, st)
    else if blockNumber = wm ∧ eventId ∈ st.events then (false, st)
    else if wm < blockNumber then (true, setWM sc blockNumber (recordEvent eventId st))
    else (true, recordEvent eventId st)

/-- The watermark-advance fragment inside `shouldNotify` (monitor.ts lines
368-370): `if (!watermark || BigInt(blockNumber) > BigInt(watermark))
await redis.set(wmKey, blockNumber)`. -/
def advanceWatermark (sc : Scope) (blockNumber : Nat) (st : MonitorState) :
    MonitorState :=
  match getWM st sc with
  | none => setWM sc blockNumber st
  | some wm => if wm < blockNumber then setWM sc blockNumber st else st

/-- A sequence of watermark advances, performed in list order. -/
def advanceSeq (sc : Scope) (l : List Nat) (st : MonitorState) : MonitorState :=
  l.foldl (fun s p => advanceWatermark sc p s) st

/-! ### Basic lemmas about the state operations -/

theorem getWM_setWM_self (sc : Scope) (bn : Nat) (st : MonitorState) :
    getWM (setWM sc bn st) sc = some bn := by
  simp [getWM, setWM, List.find?]

theorem getWM_setWM_isSome (sc sc0 : Scope) (bn : Nat) (st : MonitorState)
    (h : (getWM st sc).isSome = true) :
    (getWM (setWM sc0 bn st) sc).isSome = true := by
  by_cases hsc : sc0 = sc
  · subst hsc; simp [getWM_setWM_self]
  · simp only [getWM, setWM, List.find?] at h ⊢
    have : decide ((sc0, bn).1 = sc) = false := by
      simp [hsc]
    rw [this]
    exact h

theorem getWM_recordEvent (e : String) (st : MonitorState) (sc : Scope) :
    getWM (recordEvent e st) sc = getWM st sc := rfl

theorem events_setWM (sc : Scope) (bn : Nat) (st : MonitorState) :
    (setWM sc bn st).events = st.events := rfl

theorem events_recordEvent (e : String) (st : MonitorState) :
    (recordEvent e st).events = e :: st.events := rfl

/-! ### Case lemmas for `shouldNotify` -/

theorem shouldNotify_none (e : String) (bn : Nat) (sc : Scope)
    (st : MonitorState) (h : getWM st sc = none) :
    shouldNotify e bn sc st = (true, setWM sc bn (recordEvent e st)) := by
  unfold shouldNotify
  rw [h]

theorem shouldNotify_stale (e : String) (bn wm : Nat) (sc : Scope)
    (st : MonitorState) (h : getWM st sc = some wm) (hlt : bn < wm) :
    shouldNotify e bn sc st = (false, st) := by
  unfold shouldNotify
  rw [h]
  simp [hlt]

theorem shouldNotify_dup (e : String) (bn wm : Nat) (sc : Scope)
    (st : MonitorState) (h : getWM st sc = some wm) (heq : bn = wm)
    (he : e ∈ st.events) :
    shouldNotify e bn sc st = (false, st) := by
  subst heq
  unfold shouldNotify
  rw [h]
  simp [he]

theorem shouldNotify_boundary_fresh (e : String) (bn wm : Nat) (sc : Scope)
    (st : MonitorState) (h : getWM st sc = some wm) (heq : bn = wm)
    (he : e ∉ st.events) :
    shouldNotify e bn sc st = (true, recordEvent e st) := by
  subst heq
  unfold shouldNotify
  rw [h]
  simp [he]

theorem shouldNotify_advance (e : String) (bn wm : Nat) (sc : Scope)
    (st : MonitorState) (h : getWM st sc = some wm) (hgt : wm < bn) :
    shouldNotify e bn sc st = (true, setWM sc bn (recordEvent e st)) := by
  unfold shouldNotify
  rw [h]
  have h1 : ¬ bn < wm := by omega
  have h2 : ¬ (bn = wm ∧ e ∈ st.events) := by
    rintro ⟨h3, _⟩
    omega
  simp [h1, h2, hgt]

/-- Every `shouldNotify` call either rejects without touching the state, or
records the event (possibly also advancing the watermark). -/
theorem shouldNotify_cases (e : String) (bn : Nat) (sc : Scope)
    (st : MonitorState) :
    shouldNotify e bn sc st = (false, st)
    ∨ shouldNotify e bn sc st = (true, recordEvent e st)
    ∨ shouldNotify e bn sc st = (true, setWM sc bn (recordEvent e st)) := by
  cases h : getWM st sc with
  | none => right; right; exact shouldNotify_none e bn sc st h
  | some wm =>
    rcases Nat.lt_trichotomy bn wm with hlt | heq | hgt
    · left; exact shouldNotify_stale e bn wm sc st h hlt
    · by_cases he : e ∈ st.events
      · left; exact shouldNotify_dup e bn wm sc st h heq he
      · right; left; exact shouldNotify_boundary_fresh e bn wm sc st h heq he
    · right; right; exact shouldNotify_advance e bn wm sc st h hgt

/-- The watermark value after a `shouldNotify` call is the maximum of the
stored value and the call position. -/
theorem getWatermark_shouldNotify (e : String) (bn : Nat) (sc : Scope)
    (st : MonitorState) :
    getWatermark (shouldNotify e bn sc st).2 sc
      = max (getWatermark st sc) bn := by
  cases h : getWM st sc with
  | none =>
    rw [shouldNotify_none e bn sc st h]
    simp [getWatermark, getWM_setWM_self, h]
  | some wm =>
    rcases Nat.lt_trichotomy bn wm with hlt | heq | hgt
    · rw [shouldNotify_stale e bn wm sc st h hlt]
      simp [getWatermark, h]
      omega
    · by_cases he : e ∈ st.events
      · rw [shouldNotify_dup e bn wm sc st h heq he]
        simp [getWatermark, h]
        omega
      · rw [shouldNotify_boundary_fresh e bn wm sc st h heq he]
        simp [getWatermark, getWM_recordEvent, h]
        omega
    · rw [shouldNotify_advance e bn wm sc st h hgt]
      simp [getWatermark, getWM_setWM_self, h]
      omega

/-- A rejecting `shouldNotify` call performs no Redis writes. -/
theorem shouldNotify_false_frame (e : String) (bn : Nat) (sc : Scope)
    (st : MonitorState) (h : (shouldNotify e bn sc st).1 = false) :
    (shouldNotify e bn sc st).2 = st := by
  rcases shouldNotify_cases e bn sc st with hc | hc | hc
  · rw [hc]
  · rw [hc] at h; simp at h
  · rw [hc] at h; simp at h

/-- Recorded event ids survive any `shouldNotify` call. -/
theorem shouldNotify_events_mono (e : String) (bn : Nat) (sc : Scope)
    (st : MonitorState) (x : String) (hx : x ∈ st.events) :
    x ∈ (shouldNotify e bn sc st).2.events := by
  rcases shouldNotify_cases e bn sc st with hc | hc | hc <;>
    simp [hc, events_setWM, events_recordEvent, hx]

/-- A stored watermark stays stored across any `shouldNotify` call (at any
scope). -/
theorem shouldNotify_isSome (e : String) (bn : Nat) (sc0 sc : Scope)
    (st : MonitorState) (h : (getWM st sc).isSome = true) :
    (getWM (shouldNotify e bn sc0 st).2 sc).isSome = true := by
  rcases shouldNotify_cases e bn sc0 st with hc | hc | hc
  · rw [hc]; exact h
  · rw [hc]; rw [getWM_recordEvent]; exact h
  · rw [hc]
    exact getWM_setWM_isSome sc sc0 bn (recordEvent e st)
      (by rw [getWM_recordEvent]; exact h)

/-! ### Watermark advance lemmas -/

/-- The watermark value after an advance is the maximum of the stored value
and the new position. -/
theorem getWatermark_advance (sc : Scope) (p : Nat) (st : MonitorState) :
    getWatermark (advanceWatermark sc p st) sc = max (getWatermark st sc) p := by
  cases h : getWM st sc with
  | none =>
    unfold advanceWatermark
    rw [h]
    simp [getWatermark, getWM_setWM_self, h]
  | some wm =>
    unfold advanceWatermark
    rw [h]
    by_cases hlt : wm < p
    · simp [hlt, getWatermark, getWM_setWM_self, h]
      omega
    · simp [hlt, getWatermark, h]
      omega

theorem getWatermark_advanceSeq (sc : Scope) (l : List Nat) :
    ∀ st : MonitorState,
      getWatermark (advanceSeq sc l st) sc = l.foldl max (getWatermark st sc) := by
  induction l with
  | nil => intro st; rfl
  | cons p l ih =>
    intro st
    have hstep : advanceSeq sc (p :: l) st = advanceSeq sc l (advanceWatermark sc p st) := rfl
    rw [hstep, ih, getWatermark_advance]
    rfl

/-! ### Claim theorems: the dedup ledger -/

/-- C1: for every event identifier, position and scope, two successive
`shouldNotify` calls with the same arguments (and no intervening calls) have
the second call return false — no duplicate notification within the retention
window. -/
theorem shouldNotify_second_call_false (e : String) (bn : Nat) (sc : Scope)
    (st : MonitorState) :
    (shouldNotify e bn sc ((shouldNotify e bn sc st).2)).1 = false := by
  cases h : getWM st sc with
  | none =>
    rw [shouldNotify_none e bn sc st h]
    have hwm : getWM (setWM sc bn (recordEvent e st)) sc = some bn :=
      getWM_setWM_self sc bn (recordEvent e st)
    have he : e ∈ (setWM sc bn (recordEvent e st)).events := by
      simp [events_setWM, events_recordEvent]
    simp [shouldNotify_dup e bn bn sc _ hwm rfl he]
  | some wm =>
    rcases Nat.lt_trichotomy bn wm with hlt | heq | hgt
    · simp [shouldNotify_stale e bn wm sc st h hlt]
    · by_cases he : e ∈ st.events
      · simp [shouldNotify_dup e bn wm sc st h heq he]
      · rw [shouldNotify_boundary_fresh e bn wm sc st h heq he]
        have hwm1 : getWM (recordEvent e st) sc = some wm := by
          rw [getWM_recordEvent]; exact h
        have he1 : e ∈ (recordEvent e st).events := by
          simp [events_recordEvent]
        simp [shouldNotify_dup e bn wm sc (recordEvent e st) hwm1 heq he1]
    · rw [shouldNotify_advance e bn wm sc st h hgt]
      have hwm1 : getWM (setWM sc bn (recordEvent e st)) sc = some bn :=
        getWM_setWM_self sc bn (recordEvent e st)
      have he1 : e ∈ (setWM sc bn (recordEvent e st)).events := by
        simp [events_setWM, events_recordEvent]
      simp [shouldNotify_dup e bn bn sc _ hwm1 rfl he1]

/-- C2: starting from the initial (absent, hence zero-valued) watermark, any
sequence of watermark advances with positions `p1..pn` leaves the stored
watermark at `max(p1..pn)` (as `foldl max 0`, which is independent of the call
order); a single advance never decreases the stored watermark; and the
watermark effect of `shouldNotify` coincides with that of the advance
fragment. -/
theorem watermark_monotone_max (sc : Scope) (l : List Nat) :
    getWatermark (advanceSeq sc l ⟨[], []⟩) sc = l.foldl max 0
    ∧ (∀ (st : MonitorState) (p : Nat),
        getWatermark st sc ≤ getWatermark (advanceWatermark sc p st) sc)
    ∧ (∀ (e : String) (bn : Nat) (st : MonitorState),
        getWatermark (shouldNotify e bn sc st).2 sc
          = getWatermark (advanceWatermark sc bn st) sc) := by
  refine ⟨?_, ?_, ?_⟩
  · rw [getWatermark_advanceSeq]
    simp [getWatermark, getWM]
  · intro st p
    rw [getWatermark_advance]
    omega
  · intro e bn st
    rw [getWatermark_shouldNotify, getWatermark_advance]

/-- C5: a `shouldNotify` call whose position is strictly below the stored
watermark for the scope returns false, for every event id including one never
seen before. -/
theorem shouldNotify_stale_rejected (e : String) (bn wm : Nat) (sc : Scope)
    (st : MonitorState) (h : getWM st sc = some wm) (hlt : bn < wm) :
    (shouldNotify e bn sc st).1 = false := by
  rw [shouldNotify_stale e bn wm sc st h hlt]

theorem shouldNotify_stale_rejected_witness :
    getWM (⟨[(⟨369, "EntryPointV07"⟩, 5)], []⟩ : MonitorState) ⟨369, "EntryPointV07"⟩ = some 5
    ∧ (3 : Nat) < 5
    ∧ (shouldNotify "n" 3 ⟨369, "EntryPointV07"⟩
        (⟨[(⟨369, "EntryPointV07"⟩, 5)], []⟩ : MonitorState)).1 = false :=
  ⟨by decide, by decide,
    shouldNotify_stale_rejected "n" 3 5 ⟨369, "EntryPointV07"⟩
      (⟨[(⟨369, "EntryPointV07"⟩, 5)], []⟩ : MonitorState) (by decide) (by decide)⟩

/-- C6: boundary tie-break at the watermark. With the stored watermark equal
to the call position, the first call for an unseen event id returns true, a
repeat call for the same id returns false, and a call for a different unseen
id at the same position returns true. -/
theorem shouldNotify_boundary_tiebreak (sc : Scope) (st : MonitorState)
    (p : Nat) (e1 e2 : String) (hwm : getWM st sc = some p)
    (h1 : e1 ∉ st.events) (h2 : e2 ∉ st.events) (hne : e1 ≠ e2) :
    (shouldNotify e1 p sc st).1 = true
    ∧ (shouldNotify e1 p sc (shouldNotify e1 p sc st).2).1 = false
    ∧ (shouldNotify e2 p sc
        (shouldNotify e1 p sc (shouldNotify e1 p sc st).2).2).1 = true := by
  have hfst : shouldNotify e1 p sc st = (true, recordEvent e1 st) :=
    shouldNotify_boundary_fresh e1 p p sc st hwm rfl h1
  have hwm1 : getWM (recordEvent e1 st) sc = some p := by
    rw [getWM_recordEvent]; exact hwm
  have he1 : e1 ∈ (recordEvent e1 st).events := by
    simp [events_recordEvent]
  have hsnd : shouldNotify e1 p sc (recordEvent e1 st) = (false, recordEvent e1 st) :=
    shouldNotify_dup e1 p p sc (recordEvent e1 st) hwm1 rfl he1
  have he2 : e2 ∉ (recordEvent e1 st).events := by
    rw [events_recordEvent]
    intro hc
    rcases List.mem_cons.mp hc with hc1 | hc2
    · exact hne hc1.symm
    · exact h2 hc2
  have hthd : shouldNotify e2 p sc (recordEvent e1 st)
      = (true, recordEvent e2 (recordEvent e1 st)) :=
    shouldNotify_boundary_fresh e2 p p sc (recordEvent e1 st) hwm1 rfl he2
  refine ⟨by rw [hfst], ?_, ?_⟩
  · simp [hfst, hsnd]
  · simp [hfst, hsnd, hthd]

theorem shouldNotify_boundary_tiebreak_witness :
    getWM (⟨[(⟨1, "s"⟩, 7)], []⟩ : MonitorState) ⟨1, "s"⟩ = some 7
    ∧ "a" ∉ (⟨[(⟨1, "s"⟩, 7)], []⟩ : MonitorState).events
    ∧ "b" ∉ (⟨[(⟨1, "s"⟩, 7)], []⟩ : MonitorState).events
    ∧ "a" ≠ "b"
    ∧ ((shouldNotify "a" 7 ⟨1, "s"⟩ (⟨[(⟨1, "s"⟩, 7)], []⟩ : MonitorState)).1 = true
      ∧ (shouldNotify "a" 7 ⟨1, "s"⟩
          (shouldNotify "a" 7 ⟨1, "s"⟩ (⟨[(⟨1, "s"⟩, 7)], []⟩ : MonitorState)).2).1 = false
      ∧ (shouldNotify "b" 7 ⟨1, "s"⟩
          (shouldNotify "a" 7 ⟨1, "s"⟩
            (shouldNotify "a" 7 ⟨1, "s"⟩ (⟨[(⟨1, "s"⟩, 7)], []⟩ : MonitorState)).2).2).1 = true) :=
  ⟨by decide, by decide, by decide, by decide,
    shouldNotify_boundary_tiebreak ⟨1, "s"⟩ (⟨[(⟨1, "s"⟩, 7)], []⟩ : MonitorState) 7 "a" "b"
      (by decide) (by decide) (by decide) (by decide)⟩

/-- C9: negative-path purity — a `shouldNotify` call that returns false leaves
the watermark store and the dedup records exactly as they were (no Redis
write happens on the false paths). -/
theorem shouldNotify_false_no_writes (e : String) (bn : Nat) (sc : Scope)
    (st : MonitorState) (h : (shouldNotify e bn sc st).1 = false) :
    (shouldNotify e bn sc st).2 = st :=
  shouldNotify_false_frame e bn sc st h

theorem shouldNotify_false_no_writes_witness :
    (shouldNotify "x" 1 ⟨1, "s"⟩ (⟨[(⟨1, "s"⟩, 5)], []⟩ : MonitorState)).1 = false
    ∧ (shouldNotify "x" 1 ⟨1, "s"⟩ (⟨[(⟨1, "s"⟩, 5)], []⟩ : MonitorState)).2
        = (⟨[(⟨1, "s"⟩, 5)], []⟩ : MonitorState) :=
  ⟨by decide,
    shouldNotify_false_no_writes "x" 1 ⟨1, "s"⟩
      (⟨[(⟨1, "s"⟩, 5)], []⟩ : MonitorState) (by decide)⟩

/-! ### The poll loop -/

/-- A UserOperation event as fetched from the indexer (monitor.ts lines
215-227); `blockNumber`, `actualGasCost`, `actualGasUsed` and `timestamp` are
decimal strings in the source, always consumed through `BigInt`/`Number`, and
are modelled as `Nat`. -/
structure UserOpEvent where
  id : String
  txHash : String
  sender : String
  paymaster : Option String
  actualGasCost : Nat
  actualGasUsed : Nat
  success : Bool
  blockNumber : Nat
  timestamp : Nat
  entryPointVersion : String
  chainId : Nat
deriving DecidableEq

/-- An account-deployment event as fetched from the indexer (monitor.ts lines
229-241). -/
structure DeploymentEvent where
  id : String
  account : String
  factory : String
  entryPoint : String
  blockNumber : Nat
  timestamp : Nat
  paymaster : Option String
  entryPointVersion : String
  txHash : String
  blockHash : String
  chainId : Nat
deriving DecidableEq

/-- `processUserOp` from monitor.ts (lines 395-422): gate the event through
`shouldNotify` at scope `(op.chainId, 'EntryPointV07')`; when it passes,
attempt delivery (`notifyUserOp`, whose boolean result the source awaits and
discards) and record the attempt.  The wallet lookup (`fetchWallet`) only
decorates the Discord payload and is absorbed into `deliver`.  The returned
list collects the `(id, blockNumber)` of the events for which a notification
was attempted. -/
def processUserOp (deliver : UserOpEvent → Bool) (op : UserOpEvent)
    (st : MonitorState) : MonitorState × List (String × Nat) :=
  let r := shouldNotify op.id op.blockNumber ⟨op.chainId, "EntryPointV07"⟩ st
  if r.1 then
    let _delivered := deliver op
    (r.2, [(op.id, op.blockNumber)])
  else
    (r.2, [])

/-- `processDeployment` from monitor.ts (lines 424-446), the deployment twin
of `processUserOp`. -/
def processDeployment (deliver : DeploymentEvent → Bool) (dep : DeploymentEvent)
    (st : MonitorState) : MonitorState × List (String × Nat) :=
  let r := shouldNotify dep.id dep.blockNumber ⟨dep.chainId, "EntryPointV07"⟩ st
  if r.1 then
    let _delivered := deliver dep
    (r.2, [(dep.id, dep.blockNumber)])
  else
    (r.2, [])

/-- The `for (const op of ops) await processUserOp(op)` loop of `poll`. -/
def runOps (deliver : UserOpEvent → Bool) (ops : List UserOpEvent)
    (st : MonitorState) : MonitorState × List (String × Nat) :=
  match ops with
  | [] => (st, [])
  | op :: rest =>
    let r := processUserOp deliver op st
    let r2 := runOps deliver rest r.1
    (r2.1, r.2 ++ r2.2)

/-- The `for (const deploy of deployments) await processDeployment(deploy)`
loop of `poll`. -/
def runDeps (deliver : DeploymentEvent → Bool) (deps : List DeploymentEvent)
    (st : MonitorState) : MonitorState × List (String × Nat) :=
  match deps with
  | [] => (st, [])
  | dep :: rest =>
    let r := processDeployment deliver dep st
    let r2 := runDeps deliver rest r.1
    (r2.1, r.2 ++ r2.2)

/-- One poll cycle after a successful fetch (monitor.ts lines 462-473):
process all UserOperation events in order, then all deployment events in
order. -/
def pollCycle (deliver : UserOpEvent → Bool) (deliverDeploy : DeploymentEvent → Bool)
    (ops : List UserOpEvent) (deps : List DeploymentEvent) (st : MonitorState) :
    MonitorState × List (String × Nat) :=
  ((runDeps deliverDeploy deps (runOps deliver ops st).1).1,
   (runOps deliver ops st).2 ++ (runDeps deliverDeploy deps (runOps deliver ops st).1).2)

/-- Failure of an upstream fetch (`UpstreamUnavailable`): the GraphQL request
rejected, so `Promise.all` rejects and `poll` lands in its catch block. -/
inductive FetchError where
  | upstreamUnavailable
deriving DecidableEq

/-- `poll` from monitor.ts (lines 458-481): read the watermark, fetch both
event kinds strictly after it, and process the batches; if either fetch
fails, the catch block logs and returns with nothing mutated and nothing
notified. -/
def poll (fetchUserOps : Nat → Except FetchError (List UserOpEvent))
    (fetchDeployments : Nat → Except FetchError (List DeploymentEvent))
    (deliver : UserOpEvent → Bool) (deliverDeploy : DeploymentEvent → Bool)
    (st : MonitorState) : MonitorState × List (String × Nat) :=
  match fetchUserOps (getWatermark st ⟨369, "EntryPointV07"⟩),
        fetchDeployments (getWatermark st ⟨369, "EntryPointV07"⟩) with
  | Except.ok ops, Except.ok deps => pollCycle deliver deliverDeploy ops deps st
  | _, _ => (st, [])

/-! ### Claim theorems: the poll loop -/

def evA : UserOpEvent := ⟨"a", "", "", none, 0, 0, true, 10, 0, "v0_7", 369⟩

def evB : UserOpEvent := ⟨"b", "", "", none, 0, 0, true, 10, 0, "v0_7", 369⟩

def evC : UserOpEvent := ⟨"c", "", "", none, 0, 0, true, 12, 0, "v0_7", 369⟩

/-- C4: end-to-end scenario.  With the watermark initially unset (value 0)
and a batch of events `a` and `b` at position 10 and `c` at position 12, one
poll cycle attempts exactly the notifications `a`, `b`, `c` in that order and
leaves the watermark at 12; a second cycle over the same three events
attempts no notification. -/
theorem end_to_end_scenario :
    (pollCycle (fun _ => true) (fun _ => true) [evA, evB, evC] [] ⟨[], []⟩).2
        = [("a", 10), ("b", 10), ("c", 12)]
    ∧ getWatermark
        (pollCycle (fun _ => true) (fun _ => true) [evA, evB, evC] [] ⟨[], []⟩).1
        ⟨369, "EntryPointV07"⟩ = 12
    ∧ (pollCycle (fun _ => true) (fun _ => true) [evA, evB, evC] []
        (pollCycle (fun _ => true) (fun _ => true) [evA, evB, evC] [] ⟨[], []⟩).1).2
        = [] := by
  decide

/-- C7: if fetching either event kind fails with `UpstreamUnavailable`, the
whole poll cycle is abandoned — no notification is attempted and neither the
watermark nor any dedup record is mutated, so the next cycle retries from the
same watermark. -/
theorem poll_abandons_cycle_on_upstream_failure
    (fetchUserOps : Nat → Except FetchError (List UserOpEvent))
    (fetchDeployments : Nat → Except FetchError (List DeploymentEvent))
    (deliver : UserOpEvent → Bool) (deliverDeploy : DeploymentEvent → Bool)
    (st : MonitorState)
    (h : fetchUserOps (getWatermark st ⟨369, "EntryPointV07"⟩)
           = Except.error FetchError.upstreamUnavailable
       ∨ fetchDeployments (getWatermark st ⟨369, "EntryPointV07"⟩)
           = Except.error FetchError.upstreamUnavailable) :
    poll fetchUserOps fetchDeployments deliver deliverDeploy st = (st, []) := by
  unfold poll
  rcases h with h | h
  · rw [h]
  · cases hf : fetchUserOps (getWatermark st ⟨369, "EntryPointV07"⟩) with
    | ok ops => rw [h]
    | error e => rfl

theorem poll_abandons_cycle_on_upstream_failure_witness :
    ((fun _ : Nat => (Except.error FetchError.upstreamUnavailable :
          Except FetchError (List UserOpEvent)))
        (getWatermark ⟨[], []⟩ ⟨369, "EntryPointV07"⟩)
          = Except.error FetchError.upstreamUnavailable
      ∨ (fun _ : Nat => (Except.ok [] : Except FetchError (List DeploymentEvent)))
        (getWatermark ⟨[], []⟩ ⟨369, "EntryPointV07"⟩)
          = Except.error FetchError.upstreamUnavailable)
    ∧ poll (fun _ => Except.error FetchError.upstreamUnavailable)
        (fun _ => Except.ok []) (fun _ => true) (fun _ => true) ⟨[], []⟩
        = (⟨[], []⟩, []) :=
  ⟨Or.inl rfl,
    poll_abandons_cycle_on_upstream_failure
      (fun _ => Except.error FetchError.upstreamUnavailable)
      (fun _ => Except.ok []) (fun _ => true) (fun _ => true) ⟨[], []⟩
      (Or.inl rfl)⟩

/-! ### Lemmas about the poll loop -/

theorem runOps_cons (d : UserOpEvent → Bool) (op : UserOpEvent)
    (rest : List UserOpEvent) (st : MonitorState) :
    runOps d (op :: rest) st
      = ((runOps d rest (processUserOp d op st).1).1,
         (processUserOp d op st).2 ++ (runOps d rest (processUserOp d op st).1).2) := rfl

theorem runDeps_cons (d : DeploymentEvent → Bool) (dep : DeploymentEvent)
    (rest : List DeploymentEvent) (st : MonitorState) :
    runDeps d (dep :: rest) st
      = ((runDeps d rest (processDeployment d dep st).1).1,
         (processDeployment d dep st).2
           ++ (runDeps d rest (processDeployment d dep st).1).2) := rfl

theorem processUserOp_fst (d : UserOpEvent → Bool) (op : UserOpEvent)
    (st : MonitorState) :
    (processUserOp d op st).1
      = (shouldNotify op.id op.blockNumber ⟨op.chainId, "EntryPointV07"⟩ st).2 := by
  unfold processUserOp
  by_cases h : (shouldNotify op.id op.blockNumber ⟨op.chainId, "EntryPointV07"⟩ st).1
    = true <;> simp [h]

theorem processUserOp_snd (d : UserOpEvent → Bool) (op : UserOpEvent)
    (st : MonitorState) :
    (processUserOp d op st).2
      = if (shouldNotify op.id op.blockNumber ⟨op.chainId, "EntryPointV07"⟩ st).1
        then [(op.id, op.blockNumber)] else [] := by
  unfold processUserOp
  by_cases h : (shouldNotify op.id op.blockNumber ⟨op.chainId, "EntryPointV07"⟩ st).1
    = true <;> simp [h]

theorem processDeployment_fst (d : DeploymentEvent → Bool) (dep : DeploymentEvent)
    (st : MonitorState) :
    (processDeployment d dep st).1
      = (shouldNotify dep.id dep.blockNumber ⟨dep.chainId, "EntryPointV07"⟩ st).2 := by
  unfold processDeployment
  by_cases h : (shouldNotify dep.id dep.blockNumber ⟨dep.chainId, "EntryPointV07"⟩ st).1
    = true <;> simp [h]

theorem processDeployment_snd (d : DeploymentEvent → Bool) (dep : DeploymentEvent)
    (st : MonitorState) :
    (processDeployment d dep st).2
      = if (shouldNotify dep.id dep.blockNumber ⟨dep.chainId, "EntryPointV07"⟩ st).1
        then [(dep.id, dep.blockNumber)] else [] := by
  unfold processDeployment
  by_cases h : (shouldNotify dep.id dep.blockNumber ⟨dep.chainId, "EntryPointV07"⟩ st).1
    = true <;> simp [h]

/-- The delivery outcome is discarded by `processUserOp` (the source awaits
`notifyUserOp` and ignores its boolean), so the step does not depend on the
deliverer. -/
theorem processUserOp_deliver_irrel (d d2 : UserOpEvent → Bool)
    (op : UserOpEvent) (st : MonitorState) :
    processUserOp d op st = processUserOp d2 op st := rfl

theorem processDeployment_deliver_irrel (d d2 : DeploymentEvent → Bool)
    (dep : DeploymentEvent) (st : MonitorState) :
    processDeployment d dep st = processDeployment d2 dep st := rfl

theorem runOps_deliver_irrel (d d2 : UserOpEvent → Bool) :
    ∀ (ops : List UserOpEvent) (st : MonitorState),
      runOps d ops st = runOps d2 ops st := by
  intro ops
  induction ops with
  | nil => intro st; rfl
  | cons op rest ih =>
    intro st
    simp only [runOps_cons]
    rw [processUserOp_deliver_irrel d d2 op st, ih]

theorem runDeps_deliver_irrel (d d2 : DeploymentEvent → Bool) :
    ∀ (deps : List DeploymentEvent) (st : MonitorState),
      runDeps d deps st = runDeps d2 deps st := by
  intro deps
  induction deps with
  | nil => intro st; rfl
  | cons dep rest ih =>
    intro st
    simp only [runDeps_cons]
    rw [processDeployment_deliver_irrel d d2 dep st, ih]

theorem pollCycle_deliver_irrel (d d2 : UserOpEvent → Bool)
    (dd dd2 : DeploymentEvent → Bool) (ops : List UserOpEvent)
    (deps : List DeploymentEvent) (st : MonitorState) :
    pollCycle d dd ops deps st = pollCycle d2 dd2 ops deps st := by
  unfold pollCycle
  rw [runOps_deliver_irrel d d2 ops st, runDeps_deliver_irrel dd dd2 deps]

theorem runOps_wm (d : UserOpEvent → Bool) (c : Nat) :
    ∀ (ops : List UserOpEvent) (st : MonitorState),
      (∀ op ∈ ops, op.chainId = c) →
      getWatermark (runOps d ops st).1 ⟨c, "EntryPointV07"⟩
        = (ops.map (fun op => op.blockNumber)).foldl max
            (getWatermark st ⟨c, "EntryPointV07"⟩) := by
  intro ops
  induction ops with
  | nil => intro st _; rfl
  | cons op rest ih =>
    intro st hops
    have hc : op.chainId = c := hops op (List.mem_cons_self op rest)
    have hrest : ∀ o ∈ rest, o.chainId = c :=
      fun o ho => hops o (List.mem_cons_of_mem op ho)
    simp only [runOps_cons]
    rw [ih (processUserOp d op st).1 hrest]
    have hstep : getWatermark (processUserOp d op st).1 ⟨c, "EntryPointV07"⟩
        = max (getWatermark st ⟨c, "EntryPointV07"⟩) op.blockNumber := by
      rw [processUserOp_fst, hc, getWatermark_shouldNotify]
    rw [hstep]
    simp [List.foldl_cons]

theorem runDeps_wm (d : DeploymentEvent → Bool) (c : Nat) :
    ∀ (deps : List DeploymentEvent) (st : MonitorState),
      (∀ dep ∈ deps, dep.chainId = c) →
      getWatermark (runDeps d deps st).1 ⟨c, "EntryPointV07"⟩
        = (deps.map (fun dep => dep.blockNumber)).foldl max
            (getWatermark st ⟨c, "EntryPointV07"⟩) := by
  intro deps
  induction deps with
  | nil => intro st _; rfl
  | cons dep rest ih =>
    intro st hdeps
    have hc : dep.chainId = c := hdeps dep (List.mem_cons_self dep rest)
    have hrest : ∀ o ∈ rest, o.chainId = c :=
      fun o ho => hdeps o (List.mem_cons_of_mem dep ho)
    simp only [runDeps_cons]
    rw [ih (processDeployment d dep st).1 hrest]
    have hstep : getWatermark (processDeployment d dep st).1 ⟨c, "EntryPointV07"⟩
        = max (getWatermark st ⟨c, "EntryPointV07"⟩) dep.blockNumber := by
      rw [processDeployment_fst, hc, getWatermark_shouldNotify]
    rw [hstep]
    simp [List.foldl_cons]

theorem runOps_events (d : UserOpEvent → Bool) :
    ∀ (ops : List UserOpEvent) (st : MonitorState) (x : String),
      x ∈ st.events → x ∈ (runOps d ops st).1.events := by
  intro ops
  induction ops with
  | nil => intro st x hx; exact hx
  | cons op rest ih =>
    intro st x hx
    simp only [runOps_cons]
    apply ih
    rw [processUserOp_fst]
    exact shouldNotify_events_mono _ _ _ _ _ hx

theorem runDeps_events (d : DeploymentEvent → Bool) :
    ∀ (deps : List DeploymentEvent) (st : MonitorState) (x : String),
      x ∈ st.events → x ∈ (runDeps d deps st).1.events := by
  intro deps
  induction deps with
  | nil => intro st x hx; exact hx
  | cons dep rest ih =>
    intro st x hx
    simp only [runDeps_cons]
    apply ih
    rw [processDeployment_fst]
    exact shouldNotify_events_mono _ _ _ _ _ hx

theorem runOps_isSome (d : UserOpEvent → Bool) (sc : Scope) :
    ∀ (ops : List UserOpEvent) (st : MonitorState),
      (getWM st sc).isSome = true → (getWM (runOps d ops st).1 sc).isSome = true := by
  intro ops
  induction ops with
  | nil => intro st h; exact h
  | cons op rest ih =>
    intro st h
    simp only [runOps_cons]
    apply ih
    rw [processUserOp_fst]
    exact shouldNotify_isSome _ _ _ _ _ h

theorem runDeps_isSome (d : DeploymentEvent → Bool) (sc : Scope) :
    ∀ (deps : List DeploymentEvent) (st : MonitorState),
      (getWM st sc).isSome = true → (getWM (runDeps d deps st).1 sc).isSome = true := by
  intro deps
  induction deps with
  | nil => intro st h; exact h
  | cons dep rest ih =>
    intro st h
    simp only [runDeps_cons]
    apply ih
    rw [processDeployment_fst]
    exact shouldNotify_isSome _ _ _ _ _ h

theorem processUserOp_mem_attempts (d : UserOpEvent → Bool) (op : UserOpEvent)
    (st : MonitorState) (i : String) (b : Nat)
    (h : (i, b) ∈ (processUserOp d op st).2) :
    i = op.id ∧ b = op.blockNumber
    ∧ (shouldNotify op.id op.blockNumber ⟨op.chainId, "EntryPointV07"⟩ st).1
        = true := by
  rw [processUserOp_snd] at h
  by_cases hfst : (shouldNotify op.id op.blockNumber ⟨op.chainId, "EntryPointV07"⟩ st).1
      = true
  · rw [if_pos hfst] at h
    simp at h
    exact ⟨h.1, h.2, hfst⟩
  · rw [if_neg hfst] at h
    simp at h

theorem processDeployment_mem_attempts (d : DeploymentEvent → Bool)
    (dep : DeploymentEvent) (st : MonitorState) (i : String) (b : Nat)
    (h : (i, b) ∈ (processDeployment d dep st).2) :
    i = dep.id ∧ b = dep.blockNumber
    ∧ (shouldNotify dep.id dep.blockNumber ⟨dep.chainId, "EntryPointV07"⟩ st).1
        = true := by
  rw [processDeployment_snd] at h
  by_cases hfst : (shouldNotify dep.id dep.blockNumber ⟨dep.chainId, "EntryPointV07"⟩ st).1
      = true
  · rw [if_pos hfst] at h
    simp at h
    exact ⟨h.1, h.2, hfst⟩
  · rw [if_neg hfst] at h
    simp at h

/-- Any pair whose position is at or below the stored watermark and whose id
is already in the dedup ledger is never among the attempted notifications of
a run over UserOperation events. -/
theorem runOps_reject (d : UserOpEvent → Bool) (c : Nat) :
    ∀ (ops : List UserOpEvent) (st : MonitorState),
      (∀ op ∈ ops, op.chainId = c) →
      (getWM st ⟨c, "EntryPointV07"⟩).isSome = true →
      ∀ (i : String) (b : Nat), b ≤ getWatermark st ⟨c, "EntryPointV07"⟩ →
        i ∈ st.events → (i, b) ∉ (runOps d ops st).2 := by
  intro ops
  induction ops with
  | nil =>
    intro st _ _ i b _ _ hmem
    simp [runOps] at hmem
  | cons op rest ih =>
    intro st hops hsome i b hb hi hmem
    have hc : op.chainId = c := hops op (List.mem_cons_self op rest)
    have hrest : ∀ o ∈ rest, o.chainId = c :=
      fun o ho => hops o (List.mem_cons_of_mem op ho)
    obtain ⟨wm, hwm⟩ : ∃ wm, getWM st ⟨c, "EntryPointV07"⟩ = some wm := by
      cases hg : getWM st ⟨c, "EntryPointV07"⟩ with
      | none => rw [hg] at hsome; simp at hsome
      | some w => exact ⟨w, rfl⟩
    have hwmval : getWatermark st ⟨c, "EntryPointV07"⟩ = wm := by
      simp [getWatermark, hwm]
    simp only [runOps_cons] at hmem
    rcases List.mem_append.mp hmem with hmem1 | hmem2
    · obtain ⟨hib, hbb, hfst⟩ := processUserOp_mem_attempts d op st i b hmem1
      subst hib
      subst hbb
      rw [hc] at hfst
      rw [hwmval] at hb
      rcases Nat.lt_or_ge op.blockNumber wm with hlt | hge
      · rw [shouldNotify_stale op.id op.blockNumber wm ⟨c, "EntryPointV07"⟩ st hwm hlt]
          at hfst
        simp at hfst
      · have heq : op.blockNumber = wm := Nat.le_antisymm hb hge
        rw [shouldNotify_dup op.id op.blockNumber wm ⟨c, "EntryPointV07"⟩ st hwm heq hi]
          at hfst
        simp at hfst
    · have h1 : (getWM (processUserOp d op st).1 ⟨c, "EntryPointV07"⟩).isSome = true := by
        rw [processUserOp_fst]
        exact shouldNotify_isSome _ _ _ _ _ hsome
      have h2 : b ≤ getWatermark (processUserOp d op st).1 ⟨c, "EntryPointV07"⟩ := by
        rw [processUserOp_fst, hc, getWatermark_shouldNotify]
        omega
      have h3 : i ∈ (processUserOp d op st).1.events := by
        rw [processUserOp_fst]
        exact shouldNotify_events_mono _ _ _ _ _ hi
      exact ih (processUserOp d op st).1 hrest h1 i b h2 h3 hmem2

/-- Deployment twin of `runOps_reject`. -/
theorem runDeps_reject (d : DeploymentEvent → Bool) (c : Nat) :
    ∀ (deps : List DeploymentEvent) (st : MonitorState),
      (∀ dep ∈ deps, dep.chainId = c) →
      (getWM st ⟨c, "EntryPointV07"⟩).isSome = true →
      ∀ (i : String) (b : Nat), b ≤ getWatermark st ⟨c, "EntryPointV07"⟩ →
        i ∈ st.events → (i, b) ∉ (runDeps d deps st).2 := by
  intro deps
  induction deps with
  | nil =>
    intro st _ _ i b _ _ hmem
    simp [runDeps] at hmem
  | cons dep rest ih =>
    intro st hdeps hsome i b hb hi hmem
    have hc : dep.chainId = c := hdeps dep (List.mem_cons_self dep rest)
    have hrest : ∀ o ∈ rest, o.chainId = c :=
      fun o ho => hdeps o (List.mem_cons_of_mem dep ho)
    obtain ⟨wm, hwm⟩ : ∃ wm, getWM st ⟨c, "EntryPointV07"⟩ = some wm := by
      cases hg : getWM st ⟨c, "EntryPointV07"⟩ with
      | none => rw [hg] at hsome; simp at hsome
      | some w => exact ⟨w, rfl⟩
    have hwmval : getWatermark st ⟨c, "EntryPointV07"⟩ = wm := by
      simp [getWatermark, hwm]
    simp only [runDeps_cons] at hmem
    rcases List.mem_append.mp hmem with hmem1 | hmem2
    · obtain ⟨hib, hbb, hfst⟩ := processDeployment_mem_attempts d dep st i b hmem1
      subst hib
      subst hbb
      rw [hc] at hfst
      rw [hwmval] at hb
      rcases Nat.lt_or_ge dep.blockNumber wm with hlt | hge
      · rw [shouldNotify_stale dep.id dep.blockNumber wm ⟨c, "EntryPointV07"⟩ st hwm hlt]
          at hfst
        simp at hfst
      · have heq : dep.blockNumber = wm := Nat.le_antisymm hb hge
        rw [shouldNotify_dup dep.id dep.blockNumber wm ⟨c, "EntryPointV07"⟩ st hwm heq hi]
          at hfst
        simp at hfst
    · have h1 : (getWM (processDeployment d dep st).1 ⟨c, "EntryPointV07"⟩).isSome
          = true := by
        rw [processDeployment_fst]
        exact shouldNotify_isSome _ _ _ _ _ hsome
      have h2 : b ≤ getWatermark (processDeployment d dep st).1 ⟨c, "EntryPointV07"⟩ := by
        rw [processDeployment_fst, hc, getWatermark_shouldNotify]
        omega
      have h3 : i ∈ (processDeployment d dep st).1.events := by
        rw [processDeployment_fst]
        exact shouldNotify_events_mono _ _ _ _ _ hi
      exact ih (processDeployment d dep st).1 hrest h1 i b h2 h3 hmem2

/-! ### Arithmetic helpers for folded maxima -/

theorem foldl_max_eq (l : List Nat) : ∀ a : Nat, l.foldl max a = max a (l.foldl max 0) := by
  induction l with
  | nil => intro a; simp
  | cons x l ih =>
    intro a
    simp only [List.foldl_cons]
    rw [ih (max a x), ih (max 0 x), Nat.zero_max, Nat.max_assoc]

theorem mem_le_foldl_max : ∀ (l : List Nat) (b : Nat), b ∈ l → b ≤ l.foldl max 0 := by
  intro l
  induction l with
  | nil => intro b hb; simp at hb
  | cons x l ih =>
    intro b hb
    rw [List.foldl_cons, foldl_max_eq, Nat.zero_max]
    rcases List.mem_cons.mp hb with h | h
    · subst h
      exact Nat.le_max_left _ _
    · exact Nat.le_trans (ih b h) (Nat.le_max_right _ _)

/-- C3: forward progress under sink failure.  A poll cycle run with the
always-failing deliverer produces exactly the same state and attempt list as
with any other deliverer (delivery results are discarded, and the watermark
advance happens inside `shouldNotify`, before delivery); after the cycle the
stored watermark is the maximum of its previous value and every fetched
position — in particular, when all fetched positions exceed the old
watermark, it equals the highest fetched position — and no event already
recorded in the dedup ledger at or below the old watermark is re-notified. -/
theorem sink_failure_forward_progress
    (deliver : UserOpEvent → Bool) (deliverDeploy : DeploymentEvent → Bool)
    (ops : List UserOpEvent) (deps : List DeploymentEvent) (st : MonitorState)
    (c w0 : Nat)
    (hops : ∀ op ∈ ops, op.chainId = c)
    (hdeps : ∀ dep ∈ deps, dep.chainId = c)
    (hwm : getWM st ⟨c, "EntryPointV07"⟩ = some w0) :
    pollCycle (fun _ => false) (fun _ => false) ops deps st
        = pollCycle deliver deliverDeploy ops deps st
    ∧ getWatermark (pollCycle (fun _ => false) (fun _ => false) ops deps st).1
          ⟨c, "EntryPointV07"⟩
        = (ops.map (fun op => op.blockNumber)
            ++ deps.map (fun dep => dep.blockNumber)).foldl max w0
    ∧ ((ops.map (fun op => op.blockNumber)
          ++ deps.map (fun dep => dep.blockNumber)) ≠ []
        → (∀ b ∈ ops.map (fun op => op.blockNumber)
              ++ deps.map (fun dep => dep.blockNumber), w0 < b)
        → getWatermark (pollCycle (fun _ => false) (fun _ => false) ops deps st).1
              ⟨c, "EntryPointV07"⟩
            = (ops.map (fun op => op.blockNumber)
                ++ deps.map (fun dep => dep.blockNumber)).foldl max 0)
    ∧ (∀ op ∈ ops, op.blockNumber ≤ w0 → op.id ∈ st.events →
        (op.id, op.blockNumber)
          ∉ (pollCycle (fun _ => false) (fun _ => false) ops deps st).2)
    ∧ (∀ dep ∈ deps, dep.blockNumber ≤ w0 → dep.id ∈ st.events →
        (dep.id, dep.blockNumber)
          ∉ (pollCycle (fun _ => false) (fun _ => false) ops deps st).2) := by
  have hwmval : getWatermark st ⟨c, "EntryPointV07"⟩ = w0 := by
    simp [getWatermark, hwm]
  have hsome : (getWM st ⟨c, "EntryPointV07"⟩).isSome = true := by
    rw [hwm]; rfl
  have hW : getWatermark (pollCycle (fun _ => false) (fun _ => false) ops deps st).1
      ⟨c, "EntryPointV07"⟩
      = (ops.map (fun op => op.blockNumber)
          ++ deps.map (fun dep => dep.blockNumber)).foldl max w0 := by
    simp only [pollCycle]
    rw [runDeps_wm (fun _ => false) c deps (runOps (fun _ => false) ops st).1 hdeps]
    rw [runOps_wm (fun _ => false) c ops st hops]
    rw [hwmval, List.foldl_append]
  refine ⟨pollCycle_deliver_irrel _ _ _ _ ops deps st, hW, ?_, ?_, ?_⟩
  · intro hne hall
    rw [hW, foldl_max_eq]
    obtain ⟨b0, l0, hl⟩ := List.exists_cons_of_ne_nil hne
    have hb0 : b0 ∈ ops.map (fun op => op.blockNumber)
        ++ deps.map (fun dep => dep.blockNumber) := by
      rw [hl]; exact List.mem_cons_self _ _
    have hle := mem_le_foldl_max _ b0 hb0
    have hlt := hall b0 hb0
    exact Nat.max_eq_right (by omega)
  · intro op hop hble hie hmem
    simp only [pollCycle] at hmem
    rcases List.mem_append.mp hmem with hm1 | hm2
    · exact runOps_reject (fun _ => false) c ops st hops hsome op.id op.blockNumber
        (by rw [hwmval]; exact hble) hie hm1
    · have h1 := runOps_isSome (fun _ => false) ⟨c, "EntryPointV07"⟩ ops st hsome
      have h2 : op.blockNumber
          ≤ getWatermark (runOps (fun _ => false) ops st).1 ⟨c, "EntryPointV07"⟩ := by
        rw [runOps_wm (fun _ => false) c ops st hops, hwmval, foldl_max_eq]
        omega
      have h3 := runOps_events (fun _ => false) ops st op.id hie
      exact runDeps_reject (fun _ => false) c deps (runOps (fun _ => false) ops st).1
        hdeps h1 op.id op.blockNumber h2 h3 hm2
  · intro dep hdep hble hie hmem
    simp only [pollCycle] at hmem
    rcases List.mem_append.mp hmem with hm1 | hm2
    · exact runOps_reject (fun _ => false) c ops st hops hsome dep.id dep.blockNumber
        (by rw [hwmval]; exact hble) hie hm1
    · have h1 := runOps_isSome (fun _ => false) ⟨c, "EntryPointV07"⟩ ops st hsome
      have h2 : dep.blockNumber
          ≤ getWatermark (runOps (fun _ => false) ops st).1 ⟨c, "EntryPointV07"⟩ := by
        rw [runOps_wm (fun _ => false) c ops st hops, hwmval, foldl_max_eq]
        omega
      have h3 := runOps_events (fun _ => false) ops st dep.id hie
      exact runDeps_reject (fun _ => false) c deps (runOps (fun _ => false) ops st).1
        hdeps h1 dep.id dep.blockNumber h2 h3 hm2

def c3op1 : UserOpEvent := ⟨"a", "", "", none, 0, 0, true, 10, 0, "v0_7", 369⟩

def c3op2 : UserOpEvent := ⟨"y", "", "", none, 0, 0, true, 12, 0, "v0_7", 369⟩

def c3st : MonitorState := ⟨[(⟨369, "EntryPointV07"⟩, 10)], ["a"]⟩

theorem sink_failure_forward_progress_witness :
    (∀ op ∈ [c3op1, c3op2], op.chainId = 369)
    ∧ (∀ dep ∈ ([] : List DeploymentEvent), dep.chainId = 369)
    ∧ getWM c3st ⟨369, "EntryPointV07"⟩ = some 10
    ∧ (pollCycle (fun _ => false) (fun _ => false) [c3op1, c3op2] [] c3st
          = pollCycle (fun _ => true) (fun _ => true) [c3op1, c3op2] [] c3st
      ∧ getWatermark
            (pollCycle (fun _ => false) (fun _ => false) [c3op1, c3op2] [] c3st).1
            ⟨369, "EntryPointV07"⟩
          = ([c3op1, c3op2].map (fun op => op.blockNumber)
              ++ ([] : List DeploymentEvent).map (fun dep => dep.blockNumber)).foldl
              max 10
      ∧ (([c3op1, c3op2].map (fun op => op.blockNumber)
            ++ ([] : List DeploymentEvent).map (fun dep => dep.blockNumber)) ≠ []
          → (∀ b ∈ [c3op1, c3op2].map (fun op => op.blockNumber)
                ++ ([] : List DeploymentEvent).map (fun dep => dep.blockNumber),
              10 < b)
          → getWatermark
                (pollCycle (fun _ => false) (fun _ => false) [c3op1, c3op2] [] c3st).1
                ⟨369, "EntryPointV07"⟩
              = ([c3op1, c3op2].map (fun op => op.blockNumber)
                  ++ ([] : List DeploymentEvent).map (fun dep => dep.blockNumber)).foldl
                  max 0)
      ∧ (∀ op ∈ [c3op1, c3op2], op.blockNumber ≤ 10 → op.id ∈ c3st.events →
          (op.id, op.blockNumber)
            ∉ (pollCycle (fun _ => false) (fun _ => false) [c3op1, c3op2] [] c3st).2)
      ∧ (∀ dep ∈ ([] : List DeploymentEvent), dep.blockNumber ≤ 10 →
          dep.id ∈ c3st.events →
          (dep.id, dep.blockNumber)
            ∉ (pollCycle (fun _ => false) (fun _ => false) [c3op1, c3op2] [] c3st).2)) :=
  ⟨by decide, by decide, by decide,
    sink_failure_forward_progress (fun _ => true) (fun _ => true)
      [c3op1, c3op2] [] c3st 369 10 (by decide) (by decide) (by decide)⟩

/-! ### The Discord delivery module -/

/-- Wallet state fetched for the payload summary (discord module). -/
structure WalletState where
  address : String
  chainId : Nat
  factory : String
  entryPointVersion : String
  deployedAt : Nat
  totalUserOps : Nat
  totalGasSpent : Nat
deriving DecidableEq

/-- `UserOpInfo` from the discord module. -/
structure UserOpInfo where
  userOpHash : String
  chainId : Nat
  sender : String
  paymaster : String
  success : Bool
  actualGasCost : Nat
  actualGasUsed : Nat
  entryPointVersion : String
  txHash : String
  blockHash : String
  blockNumber : Nat
  timestamp : Nat
deriving DecidableEq

/-- `DeployInfo` from the discord module. -/
structure DeployInfo where
  userOpHash : String
  chainId : Nat
  account : String
  factory : String
  paymaster : String
  entryPointVersion : String
  txHash : String
  blockHash : String
  blockNumber : Nat
  timestamp : Nat
deriving DecidableEq

/-- A Discord embed, modelled by its title, color and the names of its
fields.  The field values (shortened addresses, explorer links, gas amounts
rendered through floating-point division, ISO timestamps) are presentation
formatting and are not modelled. -/
structure Embed where
  title : String
  color : Nat
  fieldNames : List String
deriving DecidableEq

/-- The `name` component of `getChainMeta` (discord module): known chain ids
map to display names, anything else to a generic label. -/
def getChainName (chainId : Nat) : String :=
  if chainId = 369 then "PulseChain"
  else if chainId = 1 then "Ethereum"
  else "Chain " ++ toString chainId

/-- `buildUserOpEmbed` from the discord module, at the modelled granularity:
status-dependent title and color, the seven standard fields, plus the wallet
summary field when wallet state is available. -/
def buildUserOpEmbed (op : UserOpInfo) (wallet : Option WalletState) : Embed :=
  { title := (if op.success then "✅" else "❌") ++ " UserOperation — "
      ++ getChainName op.chainId ++ " " ++ op.entryPointVersion
    color := if op.success then 0x00cc66 else 0xff3333
    fieldNames := ["Chain", "Sender", "Paymaster", "Gas Cost", "Tx", "Block",
        "EntryPoint"]
      ++ (match wallet with
          | some _ => ["📊 Wallet Summary"]
          | none => []) }

/-- `buildDeployEmbed` from the discord module, at the modelled granularity. -/
def buildDeployEmbed (dep : DeployInfo) : Embed :=
  { title := "🚀 New Account Deployed — " ++ getChainName dep.chainId ++ " "
      ++ dep.entryPointVersion
    color := 0x5865f2
    fieldNames := ["Chain", "Account", "Factory", "Paymaster", "EntryPoint",
        "Tx", "Block"] }

/-- The outcome of one `fetch` of the webhook: an HTTP response with its
status and optional `retry-after` header (in seconds), or a thrown transport
error. -/
inductive HttpOutcome where
  | response (status : Nat) (retryAfter : Option Nat)
  | thrown
deriving DecidableEq

/-- The `Response.ok` predicate of `fetch`: status in the range 200-299. -/
def statusOk (status : Nat) : Bool :=
  decide (200 ≤ status ∧ status < 300)

/-- Whether an HTTP outcome is a successful response. -/
def httpOk : HttpOutcome → Bool
  | HttpOutcome.response status _ => statusOk status
  | HttpOutcome.thrown => false

/-- The observable outcome of `doSendWebhook`: the returned boolean, the
number of webhook requests issued, and the total backoff waited (ms). -/
structure SendOutcome where
  delivered : Bool
  requests : Nat
  waitedMs : Nat
deriving DecidableEq

/-- `doSendWebhook` from the discord module (lines 242-281): return false
immediately when the webhook URL is unset or there is nothing to send;
otherwise POST once.  On a 429, wait `retry-after` seconds (defaulting to 5)
and retry exactly once, returning whether the retry succeeded; on any other
non-ok status, or a thrown transport error, return false without retrying.
The two `fetch` outcomes are supplied as parameters `resp1`/`resp2`. -/
def doSendWebhook (webhookUrl : String) (embeds : List Embed)
    (resp1 resp2 : HttpOutcome) : SendOutcome :=
  if webhookUrl = "" ∨ embeds = [] then ⟨false, 0, 0⟩
  else
    match resp1 with
    | HttpOutcome.thrown => ⟨false, 1, 0⟩
    | HttpOutcome.response status retryAfter =>
      if status = 429 then
        match resp2 with
        | HttpOutcome.thrown => ⟨false, 2, (retryAfter.getD 5) * 1000⟩
        | HttpOutcome.response status2 _ =>
          if statusOk status2 then ⟨true, 2, (retryAfter.getD 5) * 1000⟩
          else ⟨false, 2, (retryAfter.getD 5) * 1000⟩
      else if statusOk status then ⟨true, 1, 0⟩
      else ⟨false, 1, 0⟩

/-- `sendWebhook` from the discord module: the queue serialises sends and
resolves each queued item with the boolean produced by `doSendWebhook` (the
inter-send pacing does not affect the result). -/
def sendWebhook (webhookUrl : String) (embeds : List Embed)
    (resp1 resp2 : HttpOutcome) : Bool :=
  (doSendWebhook webhookUrl embeds resp1 resp2).delivered

/-- `notifyUserOp` from the discord module: build the embed and send it. -/
def notifyUserOp (webhookUrl : String) (op : UserOpInfo)
    (wallet : Option WalletState) (resp1 resp2 : HttpOutcome) : Bool :=
  sendWebhook webhookUrl [buildUserOpEmbed op wallet] resp1 resp2

/-- `notifyAccountDeployed` from the discord module. -/
def notifyAccountDeployed (webhookUrl : String) (dep : DeployInfo)
    (resp1 resp2 : HttpOutcome) : Bool :=
  sendWebhook webhookUrl [buildDeployEmbed dep] resp1 resp2

/-! ### Claim theorems: delivery -/

/-- C8: with the webhook configured and a non-empty payload, a 429 response
makes delivery wait the sink-specified `retry-after` duration (default 5 s)
and retry exactly once — two requests total — returning true exactly when
the retry succeeds; a thrown transport error or any other non-ok status
yields false after a single request, with no retry and no wait. -/
theorem webhook_rate_limit_retry (url : String) (embeds : List Embed)
    (ra : Option Nat) (resp2 : HttpOutcome) (s : Nat)
    (hurl : url ≠ "") (hne : embeds ≠ []) :
    ((doSendWebhook url embeds (HttpOutcome.response 429 ra) resp2).requests = 2
      ∧ (doSendWebhook url embeds (HttpOutcome.response 429 ra) resp2).waitedMs
          = (ra.getD 5) * 1000
      ∧ ((doSendWebhook url embeds (HttpOutcome.response 429 ra) resp2).delivered
            = true
          ↔ httpOk resp2 = true))
    ∧ doSendWebhook url embeds HttpOutcome.thrown resp2 = ⟨false, 1, 0⟩
    ∧ (s ≠ 429 → statusOk s = false →
        doSendWebhook url embeds (HttpOutcome.response s ra) resp2
          = ⟨false, 1, 0⟩) := by
  have hcond : ¬(url = "" ∨ embeds = []) := by
    rintro (h | h)
    · exact hurl h
    · exact hne h
  refine ⟨⟨?_, ?_, ?_⟩, ?_, ?_⟩
  · unfold doSendWebhook
    rw [if_neg hcond]
    cases resp2 with
    | thrown => rfl
    | response s2 ra2 =>
      by_cases h2 : statusOk s2 = true <;> simp [h2]
  · unfold doSendWebhook
    rw [if_neg hcond]
    cases resp2 with
    | thrown => rfl
    | response s2 ra2 =>
      by_cases h2 : statusOk s2 = true <;> simp [h2]
  · unfold doSendWebhook httpOk
    rw [if_neg hcond]
    cases resp2 with
    | thrown => simp
    | response s2 ra2 =>
      by_cases h2 : statusOk s2 = true <;> simp [h2]
  · unfold doSendWebhook
    rw [if_neg hcond]
  · intro h429 hnotok
    unfold doSendWebhook
    rw [if_neg hcond]
    simp [h429, hnotok]

theorem webhook_rate_limit_retry_witness :
    ("u" : String) ≠ ""
    ∧ ([(⟨"t", 0, []⟩ : Embed)] : List Embed) ≠ []
    ∧ (((doSendWebhook "u" [⟨"t", 0, []⟩] (HttpOutcome.response 429 (some 3))
            (HttpOutcome.response 200 none)).requests = 2
        ∧ (doSendWebhook "u" [⟨"t", 0, []⟩] (HttpOutcome.response 429 (some 3))
            (HttpOutcome.response 200 none)).waitedMs = ((some 3).getD 5) * 1000
        ∧ ((doSendWebhook "u" [⟨"t", 0, []⟩] (HttpOutcome.response 429 (some 3))
              (HttpOutcome.response 200 none)).delivered = true
            ↔ httpOk (HttpOutcome.response 200 none) = true))
      ∧ doSendWebhook "u" [⟨"t", 0, []⟩] HttpOutcome.thrown
          (HttpOutcome.response 200 none) = ⟨false, 1, 0⟩
      ∧ ((500 : Nat) ≠ 429 → statusOk 500 = false →
          doSendWebhook "u" [⟨"t", 0, []⟩] (HttpOutcome.response 500 (some 3))
            (HttpOutcome.response 200 none) = ⟨false, 1, 0⟩)) :=
  ⟨by decide, by decide,
    webhook_rate_limit_retry "u" [⟨"t", 0, []⟩] (some 3)
      (HttpOutcome.response 200 none) 500 (by decide) (by decide)⟩

def c10op : UserOpInfo := ⟨"h", 369, "s", "p", true, 0, 0, "v0_7", "t", "b", 1, 0⟩

def c10dep : DeployInfo := ⟨"h", 369, "acct", "f", "p", "v0_7", "t", "b", 1, 0⟩

/-- C10: with the webhook URL unconfigured (empty), or an empty embed list,
`doSendWebhook` returns false having made zero requests; consequently, with
the URL unconfigured, `notifyUserOp` and `notifyAccountDeployed` report false
for every event. -/
theorem no_webhook_no_delivery (url : String) (embeds : List Embed)
    (resp1 resp2 : HttpOutcome) (op : UserOpInfo) (wallet : Option WalletState)
    (dep : DeployInfo) (h : url = "" ∨ embeds = []) :
    doSendWebhook url embeds resp1 resp2 = ⟨false, 0, 0⟩
    ∧ (url = "" → notifyUserOp url op wallet resp1 resp2 = false
        ∧ notifyAccountDeployed url dep resp1 resp2 = false) := by
  constructor
  · unfold doSendWebhook
    rw [if_pos h]
  · intro hu
    constructor
    · unfold notifyUserOp sendWebhook doSendWebhook
      rw [if_pos (Or.inl hu)]
    · unfold notifyAccountDeployed sendWebhook doSendWebhook
      rw [if_pos (Or.inl hu)]

theorem no_webhook_no_delivery_witness :
    (("" : String) = "" ∨ ([] : List Embed) = [])
    ∧ (doSendWebhook "" [] HttpOutcome.thrown HttpOutcome.thrown = ⟨false, 0, 0⟩
      ∧ (("" : String) = "" →
          notifyUserOp "" c10op none HttpOutcome.thrown HttpOutcome.thrown = false
          ∧ notifyAccountDeployed "" c10dep HttpOutcome.thrown HttpOutcome.thrown
              = false)) :=
  ⟨Or.inl rfl,
    no_webhook_no_delivery "" [] HttpOutcome.thrown HttpOutcome.thrown c10op none
      c10dep (Or.inl rfl)⟩

end BeltUserOps
